import Mathlib

/-
A shallow embedding of the two first-party application scripts of the
GoldPricePredictor repository:

  * gradioReg_app.py    — single-model predictor (predict_gld_price),
  * Comparaison_app.py  — dual-model comparator (compare_models).

Python floats are modelled as exact rationals (ℚ); a single-row pandas
DataFrame is modelled as its column-name list paired with the values of its
one row; a loaded scikit-learn regressor (an opaque pickled artifact, external
to this repository) is modelled from the spec as a capability that validates
the column names of the frame it receives and then evaluates an arbitrary
total function on the row's values.  Fallible operations return Except.
-/

set_option autoImplicit false

namespace GoldPrice

/-- The error taxonomy of the spec (section 7): a failed artifact load,
a feature-name mismatch rejected by the artifact, and an out-of-bounds
index into a prediction array. -/
inductive PredError where
  | artifactLoadError (path : String)
  | featureMismatch
  | indexError
  deriving DecidableEq, Repr

/-- A single-row pandas DataFrame, as built by
`pd.DataFrame([[SPX, USO, SLV, EURUSD]], columns=[...])`: the ordered list of
column names together with the values of its single row. -/
structure DataFrame where
  cols : List String
  row : List ℚ
  deriving DecidableEq, Repr

/-- Modelled from the spec: a Model Artifact (an opaque pickled regressor —
its code is external to the repository) is "given a Feature Vector, produce a
scalar prediction" (section 3/6): it carries the ordered feature names it was
trained with, and a total evaluation function on the row values. -/
structure ModelArtifact where
  featureNames : List String
  eval : List ℚ → ℚ

/-- Modelled from the spec: `ModelArtifact.predict(FeatureVector) -> scalar`
(section 6).  Per section 7, a frame whose field names/order do not match what
the artifact expects is rejected with FeatureMismatchError; otherwise the
artifact returns one prediction per input row (here: one row). -/
def ModelArtifact.predict (m : ModelArtifact) (df : DataFrame) :
    Except PredError (List ℚ) :=
  if df.cols = m.featureNames then .ok [m.eval df.row] else .error .featureMismatch

/-- `float(arr[i])`: extract entry `i` of a prediction array as a plain
scalar; out of bounds raises (IndexError). -/
def float_item (arr : List ℚ) (i : ℕ) : Except PredError ℚ :=
  match arr.get? i with
  | some v => .ok v
  | none => .error .indexError

/-- The features frame both scripts build, embedding
`pd.DataFrame([[SPX, USO, SLV, EURUSD]], columns=['SPX', 'USO', 'SLV', 'EUR/USD'])`
(gradioReg_app.py line 13 and Comparaison_app.py line 16, which are textually
identical). -/
def features_df (SPX USO SLV EURUSD : ℚ) : DataFrame :=
  ⟨["SPX", "USO", "SLV", "EUR/USD"], [SPX, USO, SLV, EURUSD]⟩

/-- gradioReg_app.py lines 9–15: build the features frame, predict with the
loaded linear model, and return `float(predicted_price[0])`. -/
def predict_gld_price (linear : ModelArtifact) (SPX USO SLV EURUSD : ℚ) :
    Except PredError ℚ :=
  match linear.predict (features_df SPX USO SLV EURUSD) with
  | .error e => .error e
  | .ok predicted_price => float_item predicted_price 0

/-- Comparaison_app.py lines 11–25: build one features frame, predict with the
linear regressor, then with the forest regressor, and return
`float(linear_predicted_price[0]), float(forest_predicted_price[0])`. -/
def compare_models (linear_regressor forest_regressor : ModelArtifact)
    (SPX USO SLV EURUSD : ℚ) : Except PredError (ℚ × ℚ) :=
  match linear_regressor.predict (features_df SPX USO SLV EURUSD) with
  | .error e => .error e
  | .ok linear_predicted_price =>
    match forest_regressor.predict (features_df SPX USO SLV EURUSD) with
    | .error e => .error e
    | .ok forest_predicted_price =>
      match float_item linear_predicted_price 0 with
      | .error e => .error e
      | .ok l =>
        match float_item forest_predicted_price 0 with
        | .error e => .error e
        | .ok f => .ok (l, f)

/-- Which of the two loaded artifacts a prediction call went to. -/
inductive ModelKind where
  | linearK
  | forestK
  deriving DecidableEq, Repr

/-- One artifact invocation: which artifact was called and the exact frame it
received. -/
structure Call where
  kind : ModelKind
  input : DataFrame
  deriving DecidableEq, Repr

/-- `predict_gld_price` instrumented with the list of artifact invocations it
performs, in order, each recording the frame passed to the artifact. -/
def predict_gld_price_run (linear : ModelArtifact) (SPX USO SLV EURUSD : ℚ) :
    Except PredError ℚ × List Call :=
  let df := features_df SPX USO SLV EURUSD
  (match linear.predict df with
   | .error e => .error e
   | .ok predicted_price => float_item predicted_price 0,
   [⟨.linearK, df⟩])

/-- `compare_models` instrumented with the list of artifact invocations it
performs, in order, each recording the frame passed to the artifact.  The
body evaluates the linear prediction first (Comparaison_app.py line 19), the
forest prediction second (line 22); if the linear call raises, the forest
artifact is never invoked. -/
def compare_models_run (linear_regressor forest_regressor : ModelArtifact)
    (SPX USO SLV EURUSD : ℚ) : Except PredError (ℚ × ℚ) × List Call :=
  let df := features_df SPX USO SLV EURUSD
  match linear_regressor.predict df with
  | .error e => (.error e, [⟨.linearK, df⟩])
  | .ok linear_predicted_price =>
    match forest_regressor.predict df with
    | .error e => (.error e, [⟨.linearK, df⟩, ⟨.forestK, df⟩])
    | .ok forest_predicted_price =>
      (match float_item linear_predicted_price 0 with
       | .error e => .error e
       | .ok l =>
         match float_item forest_predicted_price 0 with
         | .error e => .error e
         | .ok f => .ok (l, f),
       [⟨.linearK, df⟩, ⟨.forestK, df⟩])

/-- The module state of gradioReg_app.py after its import-time loads: the one
loaded artifact, bound to the module-level name `linear` (line 7). -/
structure GradioRegApp where
  linear : ModelArtifact

/-- The module state of Comparaison_app.py after its import-time loads: the two
loaded artifacts (lines 8–9). -/
structure ComparaisonApp where
  linear_regressor : ModelArtifact
  forest_regressor : ModelArtifact

/-- Modelled from the spec: the Model Artifact Store (section 6) is external to
the repository; it maps a fixed local file path to the artifact stored there,
or to nothing when the path is missing/unreadable. -/
def ArtifactStore : Type :=
  String → Option ModelArtifact

/-- Modelled from the spec: `load(path) -> ModelArtifact` "fails fatally if
unreadable/corrupt" (section 6) — `joblib.load` raises when no readable
artifact exists at the path. -/
def joblib_load (store : ArtifactStore) (path : String) :
    Except PredError ModelArtifact :=
  match store path with
  | some m => .ok m
  | none => .error (.artifactLoadError path)

/-- gradioReg_app.py line 6. -/
def model_filename : String := "linear_regression_model.pkl"

/-- Comparaison_app.py line 6. -/
def linear_model_filename : String := "linear_regression_model.pkl"

/-- Comparaison_app.py line 7. -/
def forest_model_filename : String := "forest_regressor_model.pkl"

/-- Import-time initialization of gradioReg_app.py (line 7): load the one
artifact; a raised load error aborts the module before any function can be
served. -/
def gradioRegAppInit (store : ArtifactStore) : Except PredError GradioRegApp :=
  match joblib_load store model_filename with
  | .error e => .error e
  | .ok m => .ok ⟨m⟩

/-- Import-time initialization of Comparaison_app.py (lines 8–9): load the
linear artifact, then the forest artifact; a raised load error aborts the
module before any function can be served. -/
def comparaisonAppInit (store : ArtifactStore) : Except PredError ComparaisonApp :=
  match joblib_load store linear_model_filename with
  | .error e => .error e
  | .ok l =>
    match joblib_load store forest_model_filename with
    | .error e => .error e
    | .ok f => .ok ⟨l, f⟩

/-- A request served by the single-model app: module initialization must have
succeeded first; only then is the handler invoked.  The recorded call list is
empty when initialization failed: no artifact is ever invoked. -/
def serve_predict (store : ArtifactStore) (SPX USO SLV EURUSD : ℚ) :
    Except PredError ℚ × List Call :=
  match gradioRegAppInit store with
  | .error e => (.error e, [])
  | .ok app => predict_gld_price_run app.linear SPX USO SLV EURUSD

/-- A request served by the comparator app: module initialization must have
succeeded first; only then is the handler invoked.  The recorded call list is
empty when initialization failed: no artifact is ever invoked. -/
def serve_compare (store : ArtifactStore) (SPX USO SLV EURUSD : ℚ) :
    Except PredError (ℚ × ℚ) × List Call :=
  match comparaisonAppInit store with
  | .error e => (.error e, [])
  | .ok app => compare_models_run app.linear_regressor app.forest_regressor SPX USO SLV EURUSD

/-- A call to `predict_gld_price` as a step on the module state: the body
(gradioReg_app.py lines 9–15) assigns to no module-level name, so the state
after the call is the state before it. -/
def predict_gld_price_call (st : GradioRegApp) (SPX USO SLV EURUSD : ℚ) :
    Except PredError ℚ × GradioRegApp :=
  (predict_gld_price st.linear SPX USO SLV EURUSD, st)

/-- A call to `compare_models` as a step on the module state: the body
(Comparaison_app.py lines 11–25) assigns to no module-level name, so the state
after the call is the state before it. -/
def compare_models_call (st : ComparaisonApp) (SPX USO SLV EURUSD : ℚ) :
    Except PredError (ℚ × ℚ) × ComparaisonApp :=
  (compare_models st.linear_regressor st.forest_regressor SPX USO SLV EURUSD, st)

/-- The module state after an arbitrary history of `compare_models` calls. -/
def run_history (st : ComparaisonApp) (hist : List (ℚ × ℚ × ℚ × ℚ)) :
    ComparaisonApp :=
  hist.foldl (fun s i => (compare_models_call s i.1 i.2.1 i.2.2.1 i.2.2.2).2) st

/-- Building the features frame from an explicit ordered list of
(column name, value) pairs: the frame's column order is the assembly order.
Generalizes `features_df`, whose assembly order is
SPX, USO, SLV, EUR/USD. -/
def assembled_df (pairs : List (String × ℚ)) : DataFrame :=
  ⟨pairs.map Prod.fst, pairs.map Prod.snd⟩

/-- The assembly order used by both scripts: SPX, USO, SLV, EUR/USD, each name
bound to its value. -/
def canonical_pairs (SPX USO SLV EURUSD : ℚ) : List (String × ℚ) :=
  [("SPX", SPX), ("USO", USO), ("SLV", SLV), ("EUR/USD", EURUSD)]

/-- `predict_gld_price` with the frame-assembly order made explicit: identical
body, but the features frame is built from the given (name, value) pairs in
the given order. -/
def predict_gld_price_assembled (linear : ModelArtifact)
    (pairs : List (String × ℚ)) : Except PredError ℚ :=
  match linear.predict (assembled_df pairs) with
  | .error e => .error e
  | .ok predicted_price => float_item predicted_price 0

/-- `compare_models` with the frame-assembly order made explicit: identical
body, but the features frame is built from the given (name, value) pairs in
the given order. -/
def compare_models_assembled (linear_regressor forest_regressor : ModelArtifact)
    (pairs : List (String × ℚ)) : Except PredError (ℚ × ℚ) :=
  match linear_regressor.predict (assembled_df pairs) with
  | .error e => .error e
  | .ok linear_predicted_price =>
    match forest_regressor.predict (assembled_df pairs) with
    | .error e => .error e
    | .ok forest_predicted_price =>
      match float_item linear_predicted_price 0 with
      | .error e => .error e
      | .ok l =>
        match float_item forest_predicted_price 0 with
        | .error e => .error e
        | .ok f => .ok (l, f)

/-- A concrete stand-in for the pickled linear-regression artifact, trained on
the four canonical feature names; predicts the first feature's value. -/
def linTest : ModelArtifact :=
  ⟨["SPX", "USO", "SLV", "EUR/USD"], fun r => r.headI⟩

/-- A concrete stand-in for the pickled random-forest artifact, trained on the
four canonical feature names; predicts the constant 7. -/
def forestTest : ModelArtifact :=
  ⟨["SPX", "USO", "SLV", "EUR/USD"], fun _ => 7⟩

/-- A concrete stand-in for the artifact of a model trained on other feature
names: it rejects the scripts' frame. -/
def badTest : ModelArtifact :=
  ⟨["GLD"], fun _ => 0⟩

/-- A concrete store holding both artifact files. -/
def testStore : ArtifactStore := fun p =>
  if p = "linear_regression_model.pkl" then some linTest
  else if p = "forest_regressor_model.pkl" then some forestTest
  else none

/-- A concrete store holding no artifact file. -/
def emptyStore : ArtifactStore := fun _ => none

example : predict_gld_price linTest 1400 12 15 (11/10) = .ok 1400 := rfl
example : compare_models linTest forestTest 1400 12 15 (11/10) = .ok (1400, 7) := rfl
example : compare_models badTest forestTest 0 0 0 0 = .error .featureMismatch := rfl
example : (serve_compare testStore 1400 12 15 (11/10)).1 = .ok (1400, 7) := rfl
example : (serve_compare emptyStore 0 0 0 0).2 = [] := rfl

/-- A `compare_models` call never changes the module state, so any history of
calls leaves the loaded artifacts as they were. -/
theorem run_history_eq (st : ComparaisonApp) (hist : List (ℚ × ℚ × ℚ × ℚ)) :
    run_history st hist = st := by
  induction hist generalizing st with
  | nil => rfl
  | cons a t ih => exact ih st

/-- The instrumented comparator computes the same result as the plain one. -/
theorem compare_models_run_fst (lin forest : ModelArtifact) (s u v e : ℚ) :
    (compare_models_run lin forest s u v e).1 = compare_models lin forest s u v e := by
  cases hl : lin.predict (features_df s u v e) with
  | error e1 => simp [compare_models_run, compare_models, hl]
  | ok lp =>
    cases hf : forest.predict (features_df s u v e) with
    | error e2 => simp [compare_models_run, compare_models, hl, hf]
    | ok fp => simp [compare_models_run, compare_models, hl, hf]

/-- The instrumented predictor computes the same result as the plain one. -/
theorem predict_gld_price_run_fst (lin : ModelArtifact) (s u v e : ℚ) :
    (predict_gld_price_run lin s u v e).1 = predict_gld_price lin s u v e := rfl

/-- C1: for every four numeric inputs, `compare_models` returns the 2-tuple in
fixed order — element 0 is the linear-regression artifact's prediction,
element 1 is the random-forest artifact's prediction — regardless of the
history of previous calls. -/
theorem compare_models_fixed_order (lin forest : ModelArtifact) (s u v e : ℚ)
    (hl : lin.featureNames = ["SPX", "USO", "SLV", "EUR/USD"])
    (hf : forest.featureNames = ["SPX", "USO", "SLV", "EUR/USD"])
    (hist : List (ℚ × ℚ × ℚ × ℚ)) :
    (compare_models_call (run_history ⟨lin, forest⟩ hist) s u v e).1 =
      .ok (lin.eval [s, u, v, e], forest.eval [s, u, v, e]) := by
  rw [run_history_eq]
  simp [compare_models_call, compare_models, ModelArtifact.predict, features_df,
    hl, hf, float_item]

/-- Witness for C1 at a concrete store of artifacts, inputs and history. -/
theorem compare_models_fixed_order_witness :
    (compare_models_call (run_history ⟨linTest, forestTest⟩ [(1, 2, 3, 4)])
        1400 12 15 (11/10)).1 =
      .ok (linTest.eval [1400, 12, 15, 11/10], forestTest.eval [1400, 12, 15, 11/10]) :=
  compare_models_fixed_order linTest forestTest 1400 12 15 (11/10) rfl rfl [(1, 2, 3, 4)]

/-- C5: calling `predict_gld_price` or `compare_models` twice with identical
inputs against the same loaded artifacts yields identical results, and neither
call mutates the module state. -/
theorem calls_deterministic_stateless (stc : ComparaisonApp) (stg : GradioRegApp)
    (s u v e : ℚ) :
    (compare_models_call (compare_models_call stc s u v e).2 s u v e).1 =
        (compare_models_call stc s u v e).1 ∧
    (compare_models_call (compare_models_call stc s u v e).2 s u v e).2 = stc ∧
    (predict_gld_price_call (predict_gld_price_call stg s u v e).2 s u v e).1 =
        (predict_gld_price_call stg s u v e).1 ∧
    (predict_gld_price_call (predict_gld_price_call stg s u v e).2 s u v e).2 = stg :=
  ⟨rfl, rfl, rfl, rfl⟩

/-- C6: for all inputs and artifacts trained on the scripts' column names,
`predict_gld_price` and `compare_models` return a success value (no raised
error); the returned scalars are rationals, finite by construction. -/
theorem predict_compare_total (lin forest : ModelArtifact) (s u v e : ℚ)
    (hl : lin.featureNames = ["SPX", "USO", "SLV", "EUR/USD"])
    (hf : forest.featureNames = ["SPX", "USO", "SLV", "EUR/USD"]) :
    (predict_gld_price lin s u v e).isOk = true ∧
    (compare_models lin forest s u v e).isOk = true := by
  constructor
  · simp [predict_gld_price, ModelArtifact.predict, features_df, hl, float_item,
      Except.isOk, Except.toBool]
  · simp [compare_models, ModelArtifact.predict, features_df, hl, hf, float_item,
      Except.isOk, Except.toBool]

/-- Witness for C6 at the all-zero boundary inputs. -/
theorem predict_compare_total_witness :
    (predict_gld_price linTest 0 0 0 0).isOk = true ∧
    (compare_models linTest forestTest 0 0 0 0).isOk = true :=
  predict_compare_total linTest forestTest 0 0 0 0 rfl rfl

/-- C7: if either artifact's prediction call fails, the whole comparison fails:
`compare_models` returns an error and no 2-tuple; partial results cannot
occur. -/
theorem compare_models_no_partial (lin forest : ModelArtifact) (s u v e : ℚ)
    (h : (lin.predict (features_df s u v e)).isOk = false ∨
         (forest.predict (features_df s u v e)).isOk = false) :
    (compare_models lin forest s u v e).isOk = false := by
  unfold compare_models
  cases hl : lin.predict (features_df s u v e) with
  | error e1 => rfl
  | ok lp =>
    cases hf : forest.predict (features_df s u v e) with
    | error e2 => rfl
    | ok fp =>
      rcases h with h | h
      · rw [hl] at h
        simp [Except.isOk, Except.toBool] at h
      · rw [hf] at h
        simp [Except.isOk, Except.toBool] at h

/-- Witness for C7: an artifact trained on other column names fails, and the
whole comparison fails with it. -/
theorem compare_models_no_partial_witness :
    (compare_models badTest forestTest 0 0 0 0).isOk = false :=
  compare_models_no_partial badTest forestTest 0 0 0 0 (Or.inl rfl)

/-- C2: `compare_models` builds exactly one features frame; every prediction
call it performs receives exactly that frame, and whenever the comparison
succeeds, both artifacts were invoked, each on the identical frame. -/
theorem compare_models_single_frame (lin forest : ModelArtifact) (s u v e : ℚ) :
    ((compare_models_run lin forest s u v e).2 =
        [⟨.linearK, features_df s u v e⟩] ∨
     (compare_models_run lin forest s u v e).2 =
        [⟨.linearK, features_df s u v e⟩, ⟨.forestK, features_df s u v e⟩]) ∧
    ((compare_models_run lin forest s u v e).1.isOk = true →
     (compare_models_run lin forest s u v e).2 =
        [⟨.linearK, features_df s u v e⟩, ⟨.forestK, features_df s u v e⟩]) := by
  cases hl : lin.predict (features_df s u v e) with
  | error e1 =>
    refine ⟨Or.inl ?_, fun h => ?_⟩
    · simp [compare_models_run, hl]
    · simp [compare_models_run, hl, Except.isOk, Except.toBool] at h
  | ok lp =>
    cases hf : forest.predict (features_df s u v e) with
    | error e2 =>
      refine ⟨Or.inr ?_, fun _ => ?_⟩ <;> simp [compare_models_run, hl, hf]
    | ok fp =>
      refine ⟨Or.inr ?_, fun _ => ?_⟩ <;> simp [compare_models_run, hl, hf]

/-- Witness for C2 at concrete artifacts and inputs: the successful comparison
invoked both artifacts on the one constructed frame. -/
theorem compare_models_single_frame_witness :
    (compare_models_run linTest forestTest 0 0 0 0).2 =
      [⟨.linearK, features_df 0 0 0 0⟩, ⟨.forestK, features_df 0 0 0 0⟩] :=
  (compare_models_single_frame linTest forestTest 0 0 0 0).2 rfl

/-- C10: the comparator evaluates the linear model first; if the linear
prediction call fails, that error is the comparator's result, and the forest
artifact is never invoked (the call trace holds only the linear call). -/
theorem compare_models_first_error (lin forest : ModelArtifact) (s u v e : ℚ)
    (err : PredError) (h : lin.predict (features_df s u v e) = .error err) :
    compare_models_run lin forest s u v e =
      (.error err, [⟨.linearK, features_df s u v e⟩]) := by
  simp [compare_models_run, h]

/-- Witness for C10: an ill-matched linear artifact fails, the comparator
propagates its error and records no forest invocation. -/
theorem compare_models_first_error_witness :
    compare_models_run badTest forestTest 0 0 0 0 =
      (.error .featureMismatch, [⟨.linearK, features_df 0 0 0 0⟩]) :=
  compare_models_first_error badTest forestTest 0 0 0 0 .featureMismatch rfl

/-- `compare_models` succeeding forces the linear prediction and the linear
extraction to succeed, with the tuple's first element coming from them. -/
theorem compare_models_ok_fst (lin forest : ModelArtifact) (s u v e : ℚ)
    (p : ℚ × ℚ) (h : compare_models lin forest s u v e = .ok p) :
    predict_gld_price lin s u v e = .ok p.1 := by
  unfold compare_models at h
  unfold predict_gld_price
  split at h
  · exact absurd h (by simp)
  · rename_i lp hl
    split at h
    · exact absurd h (by simp)
    · rename_i fp hf
      split at h
      · exact absurd h (by simp)
      · rename_i l hil
        split at h
        · exact absurd h (by simp)
        · rename_i f hif
          simp only [Except.ok.injEq] at h
          subst h
          simp [hil]

/-- C3: both scripts load the artifact stored at
"linear_regression_model.pkl"; whenever the comparator app (serving from a
given store) returns a pair, the single-model app serving from the same store
returns exactly that pair's first element. -/
theorem predict_eq_compare_fst (store : ArtifactStore) (s u v e : ℚ)
    (p : ℚ × ℚ) (h : (serve_compare store s u v e).1 = .ok p) :
    (serve_predict store s u v e).1 = .ok p.1 := by
  unfold serve_compare comparaisonAppInit joblib_load at h
  unfold serve_predict gradioRegAppInit joblib_load
  cases hl : store linear_model_filename with
  | none => rw [hl] at h; exact absurd h (by simp)
  | some l =>
    rw [hl] at h
    cases hf : store forest_model_filename with
    | none => rw [hf] at h; exact absurd h (by simp)
    | some f =>
      rw [hf] at h
      have hm : store model_filename = some l := hl
      rw [hm]
      rw [compare_models_run_fst] at h
      rw [predict_gld_price_run_fst]
      exact compare_models_ok_fst l f s u v e p h

/-- Witness for C3 at a concrete store holding both artifacts and the spec's
concrete scenario inputs. -/
theorem predict_eq_compare_fst_witness :
    (serve_predict testStore 1400 12 15 (11/10)).1 =
      .ok (((1400 : ℚ), (7 : ℚ)).1) :=
  predict_eq_compare_fst testStore 1400 12 15 (11/10) (1400, 7) rfl

/-- C8: when the artifact store lacks either required file, module
initialization of the comparator app fails with an ArtifactLoadError, and no
request is ever served: every serve attempt returns the load error and invokes
no artifact; likewise for the single-model app when its file is missing. -/
theorem artifact_load_fatal (store : ArtifactStore)
    (h : store linear_model_filename = none ∨ store forest_model_filename = none) :
    (∃ p, comparaisonAppInit store = .error (.artifactLoadError p)) ∧
    (∀ s u v e : ℚ, (serve_compare store s u v e).2 = [] ∧
        (serve_compare store s u v e).1.isOk = false) ∧
    (store model_filename = none →
      (∃ p, gradioRegAppInit store = .error (.artifactLoadError p)) ∧
      ∀ s u v e : ℚ, (serve_predict store s u v e).2 = [] ∧
        (serve_predict store s u v e).1.isOk = false) := by
  have hinit : ∃ p, comparaisonAppInit store = .error (.artifactLoadError p) := by
    rcases h with h | h
    · exact ⟨linear_model_filename, by simp [comparaisonAppInit, joblib_load, h]⟩
    · cases hl : store linear_model_filename with
      | none =>
        exact ⟨linear_model_filename, by simp [comparaisonAppInit, joblib_load, hl]⟩
      | some l =>
        exact ⟨forest_model_filename,
          by simp [comparaisonAppInit, joblib_load, hl, h]⟩
  obtain ⟨p, hp⟩ := hinit
  refine ⟨⟨p, hp⟩, fun s u v e => ?_, fun hm => ?_⟩
  · simp [serve_compare, hp, Except.isOk, Except.toBool]
  · refine ⟨⟨model_filename, by simp [gradioRegAppInit, joblib_load, hm]⟩,
      fun s u v e => ?_⟩
    simp [serve_predict, gradioRegAppInit, joblib_load, hm, Except.isOk,
      Except.toBool]

/-- Witness for C8 at the empty store: both apps fail to initialize with an
ArtifactLoadError and serve no request. -/
theorem artifact_load_fatal_witness :
    (∃ p, comparaisonAppInit emptyStore = .error (.artifactLoadError p)) ∧
    (serve_compare emptyStore 0 0 0 0).2 = [] ∧
    (∃ p, gradioRegAppInit emptyStore = .error (.artifactLoadError p)) ∧
    (serve_predict emptyStore 0 0 0 0).2 = [] :=
  ⟨(artifact_load_fatal emptyStore (Or.inl rfl)).1,
   ((artifact_load_fatal emptyStore (Or.inl rfl)).2.1 0 0 0 0).1,
   ((artifact_load_fatal emptyStore (Or.inl rfl)).2.2 rfl).1,
   (((artifact_load_fatal emptyStore (Or.inl rfl)).2.2 rfl).2 0 0 0 0).1⟩

/-- Counterexample for C4: at input (0, 0, 0, 0), the frame the predictor
passes to its artifact does not carry the column names
SPX, USO, SLV, EURUSD — its fourth column is named "EUR/USD". -/
theorem fields_named_eurusd_false :
    ((predict_gld_price_run linTest 0 0 0 0).2.map fun c => c.input.cols) ≠
      [["SPX", "USO", "SLV", "EURUSD"]] := by
  decide

/-- C4 (amended): both functions assemble the Feature Vector as an ordered
single row with exactly the four named fields SPX, USO, SLV, EUR/USD (the
fourth column name is the string "EUR/USD"), in that fixed order, and every
artifact invocation receives a frame with exactly those names and the four
input values in order. -/
theorem fields_fixed_order_and_names (lin forest : ModelArtifact) (s u v e : ℚ) :
    (predict_gld_price_run lin s u v e).2.map (fun c => c.input) =
      [DataFrame.mk ["SPX", "USO", "SLV", "EUR/USD"] [s, u, v, e]] ∧
    ((compare_models_run lin forest s u v e).2.map (fun c => c.input) =
      [DataFrame.mk ["SPX", "USO", "SLV", "EUR/USD"] [s, u, v, e]] ∨
     (compare_models_run lin forest s u v e).2.map (fun c => c.input) =
      [DataFrame.mk ["SPX", "USO", "SLV", "EUR/USD"] [s, u, v, e],
       DataFrame.mk ["SPX", "USO", "SLV", "EUR/USD"] [s, u, v, e]]) := by
  refine ⟨rfl, ?_⟩
  cases hl : lin.predict (features_df s u v e) with
  | error e1 =>
    exact Or.inl (by simp only [compare_models_run, hl]; simp [features_df])
  | ok lp =>
    cases hf : forest.predict (features_df s u v e) with
    | error e2 =>
      exact Or.inr (by simp only [compare_models_run, hl, hf]; simp [features_df])
    | ok fp =>
      exact Or.inr (by simp only [compare_models_run, hl, hf]; simp [features_df])

/-- Counterexample for C9: assembling the same four correctly-named values
with USO first instead of SPX changes the result of the predictor — the
artifact trained on the canonical column order rejects the permuted frame
instead of returning the same prediction. -/
theorem feature_order_invariance_false :
    predict_gld_price_assembled linTest
        [("USO", 12), ("SPX", 1400), ("SLV", 15), ("EUR/USD", 11/10)] ≠
      predict_gld_price linTest 1400 12 15 (11/10) := by
  have h1 : predict_gld_price_assembled linTest
      [("USO", 12), ("SPX", 1400), ("SLV", 15), ("EUR/USD", 11/10)] =
      .error .featureMismatch := rfl
  have h2 : predict_gld_price linTest 1400 12 15 (11/10) = .ok 1400 := rfl
  rw [h1, h2]
  exact fun h => Except.noConfusion h

/-- C9 (amended): the assembly order of the four named inputs is the frame's
column order, and the artifact accepts only the column order it was trained
with: assembling in the canonical order SPX, USO, SLV, EUR/USD reproduces
`predict_gld_price` and `compare_models` exactly, while any assembly whose
column list differs from the artifact's expected names fails with
FeatureMismatchError rather than returning the same result. -/
theorem feature_order_sensitivity (lin forest : ModelArtifact) (s u v e : ℚ) :
    predict_gld_price_assembled lin (canonical_pairs s u v e) =
        predict_gld_price lin s u v e ∧
    compare_models_assembled lin forest (canonical_pairs s u v e) =
        compare_models lin forest s u v e ∧
    (∀ pairs : List (String × ℚ), pairs.map Prod.fst ≠ lin.featureNames →
      predict_gld_price_assembled lin pairs = .error .featureMismatch ∧
      compare_models_assembled lin forest pairs = .error .featureMismatch) := by
  refine ⟨rfl, rfl, fun pairs hne => ⟨?_, ?_⟩⟩
  · simp [predict_gld_price_assembled, ModelArtifact.predict, assembled_df, hne]
  · simp [compare_models_assembled, ModelArtifact.predict, assembled_df, hne]

/-- Witness for C9 (amended) at a concrete artifact and a concrete permuted
assembly: the permuted frame is rejected with FeatureMismatchError. -/
theorem feature_order_sensitivity_witness :
    predict_gld_price_assembled linTest
        [("USO", (0 : ℚ)), ("SPX", 0), ("SLV", 0), ("EUR/USD", 0)] =
      .error .featureMismatch ∧
    compare_models_assembled linTest forestTest
        [("USO", (0 : ℚ)), ("SPX", 0), ("SLV", 0), ("EUR/USD", 0)] =
      .error .featureMismatch :=
  (feature_order_sensitivity linTest forestTest 0 0 0 0).2.2
    [("USO", 0), ("SPX", 0), ("SLV", 0), ("EUR/USD", 0)] (by decide)

end GoldPrice
